import Mathlib

/-!
Shallow embedding of the mvd-coapp native helper tools:

* `src/tools/fileui/src/pick.cpp` — file/folder picker and shell operations
  (`write_utf8_stdout`, `parse_args`, `reveal_file`, `open_folder`,
  `open_file`, `main`, and the inline path-normalization logic in `main`);
* `src/tools/diskspace/src/diskspace.cpp` — disk free-space query (`main`,
  Windows branch, which is the reference behavior the spec describes).

OS calls (COM initialization, `SHParseDisplayName`, `ILClone`,
`ILRemoveLastID`, `ILFindLastID`, `SHOpenFolderAndSelectItems`,
`ShellExecuteExW`, `CoCreateInstance`, the dialog `Show`/`GetResult`/
`GetDisplayName`, `GetLongPathNameW`, `fwrite`) are modeled as an oracle
structure fixing their outcomes; each model function returns its exit code,
the bytes written to standard output where relevant, and a trace of events
(resource acquisitions/releases, OS invocations, stderr diagnostics).
Memory allocation (`malloc`) is modeled as infallible, and the
UTF-16 → UTF-8 conversion (`WideCharToMultiByte`) as the standard total
UTF-8 encoding of the wide string; wide strings are `List Char`.
-/

namespace Mvd

/-- UTF-8 encoding of one character, as byte values (models what
`WideCharToMultiByte(CP_UTF8, ...)` produces for the code point). -/
def utf8EncodeChar (c : Char) : List Nat :=
  let v := c.toNat
  if v < 0x80 then [v]
  else if v < 0x800 then
    [0xC0 + v / 0x40, 0x80 + v % 0x40]
  else if v < 0x10000 then
    [0xE0 + v / 0x1000, 0x80 + v / 0x40 % 0x40, 0x80 + v % 0x40]
  else
    [0xF0 + v / 0x40000, 0x80 + v / 0x1000 % 0x40, 0x80 + v / 0x40 % 0x40,
      0x80 + v % 0x40]

/-- UTF-8 byte sequence of a wide string (terminator excluded). -/
def utf8Bytes (s : List Char) : List Nat :=
  (s.map utf8EncodeChar).flatten

/-- Embedding of `write_utf8_stdout` (pick.cpp lines 40–54).
`wstr = none` models a null `wchar_t*`.  `WideCharToMultiByte` computes
`needed` = UTF-8 size including the NUL terminator, so `needed ≤ 1` is the
"effectively empty" failure.  `fwrite` is the oracle for the C `fwrite`
call: given the requested byte count it returns the count actually written
(clamped to the request, as `fwrite` cannot over-report).  Returns the C
return value (0 success / 1 failure) and the bytes that reached stdout.
`malloc` is modeled as infallible. -/
def write_utf8_stdout (wstr : Option (List Char)) (fwrite : Nat → Nat) :
    Nat × List Nat :=
  match wstr with
  | none => (1, [])
  | some s =>
    let bytes := utf8Bytes s
    let needed := bytes.length + 1
    if needed ≤ 1 then (1, [])
    else
      let len := needed - 1
      let out := min (fwrite len) len
      (if out = len then 0 else 1, bytes.take out)

/-- The extended-length UNC marker `\\?\UNC\` (8 characters), compared by
`wcsncmp(wz, L"\\\\?\\UNC\\", 8)` in pick.cpp line 335. -/
def uncMarker : List Char := ['\\', '\\', '?', '\\', 'U', 'N', 'C', '\\']

/-- The plain extended-length marker `\\?\` (4 characters), compared by
`wcsncmp(wz, L"\\\\?\\", 4)` in pick.cpp line 348. -/
def extMarker : List Char := ['\\', '\\', '?', '\\']

/-- Embedding of the inline path-normalization logic of `main`
(pick.cpp lines 332–359), the spec's PathCanonicalizer `normalize`.
`glpn` is the oracle for `GetLongPathNameW`: `some lp` models a call that
reports the expansion `lp` (whose length is the returned `len`; a result
too long for the 32768-wide buffer is modeled by `lp.length ≥ 32768`),
`none` models a call returning 0 (failure).  The UNC branch returns
immediately without consulting `glpn`. -/
def normalize (raw : List Char) (glpn : List Char → Option (List Char)) :
    List Char :=
  if uncMarker.isPrefixOf raw then
    ['\\', '\\'] ++ raw.drop 8
  else
    let outputPath := if extMarker.isPrefixOf raw then raw.drop 4 else raw
    match glpn outputPath with
    | some lp =>
        if 0 < lp.length ∧ lp.length < 32768 then lp else outputPath
    | none => outputPath

/-- Observable events of the fileui tool: resource acquisitions and
releases, OS invocations, and stderr diagnostics. -/
inductive Ev where
  /-- `CoInitializeEx` was invoked; `ok` is whether it succeeded. -/
  | coInit (ok : Bool)
  /-- `CoUninitialize` was invoked (the session scope was torn down). -/
  | coUninit
  /-- `SHParseDisplayName` produced the absolute PIDL (`pidlFile`). -/
  | acqFile
  /-- `ILFree(pidlFile)`. -/
  | relFile
  /-- `ILClone` produced the parent-to-be PIDL (`pidlFolder`). -/
  | acqFolder
  /-- `ILFree(pidlFolder)`. -/
  | relFolder
  /-- An `ILFree` on the child PIDL view (never emitted by the code). -/
  | relChild
  /-- `SHOpenFolderAndSelectItems` was invoked. -/
  | showSelect
  /-- `ShellExecuteExW` was invoked. -/
  | shellExec
  /-- `CoCreateInstance` was invoked. -/
  | coCreate
  /-- The dialog `Show` call was invoked. -/
  | dialogShow
  /-- `GetResult` was invoked. -/
  | getResult
  /-- `GetDisplayName` was invoked. -/
  | getDisplayName
  /-- A diagnostic line written to standard error. -/
  | err (s : String)
deriving DecidableEq, Repr

/-- Oracle fixing the outcome of every OS call the fileui tool makes. -/
structure FileuiOS where
  /-- `CoInitializeEx` succeeds. -/
  comInitOk : Bool
  /-- `SHParseDisplayName` succeeds with a non-null PIDL. -/
  parseOk : Bool
  /-- `ILClone` succeeds. -/
  cloneOk : Bool
  /-- `ILRemoveLastID` returns TRUE. -/
  removeLastOk : Bool
  /-- `ILFindLastID` returns a non-null child PIDL. -/
  findLastOk : Bool
  /-- `SHOpenFolderAndSelectItems` succeeds. -/
  showSelectOk : Bool
  /-- `ShellExecuteExW` returns TRUE. -/
  shellExecOk : Bool
  /-- `CoCreateInstance` succeeds with a non-null dialog. -/
  coCreateOk : Bool
  /-- The dialog `Show` returns `S_OK` (user confirmed, not cancelled). -/
  dialogShowOk : Bool
  /-- `GetResult` succeeds with a non-null item. -/
  getResultOk : Bool
  /-- `GetDisplayName(SIGDN_FILESYSPATH)` result: `none` models failure or
  a null pointer; `some []` models an empty string (`*wz == 0`). -/
  displayName : Option (List Char)
  /-- `GetLongPathNameW` oracle (see `normalize`). -/
  glpn : List Char → Option (List Char)
  /-- `fwrite` oracle (see `write_utf8_stdout`). -/
  fwrite : Nat → Nat

/-- Embedding of `reveal_file` (pick.cpp lines 113–173).  `filepath = none`
models a null pointer.  Returns the function's return value and the event
trace; events appear in the order of the corresponding calls on each
source return path (in particular, on the show-failed path both `ILFree`s
and `CoUninitialize` precede the stderr diagnostic, as in the source). -/
def reveal_file (filepath : Option String) (os : FileuiOS) :
    Nat × List Ev :=
  match filepath with
  | none => (1, [.err "reveal: invalid-path"])
  | some p =>
    if p.isEmpty then (1, [.err "reveal: invalid-path"])
    else if !os.comInitOk then
      (1, [.coInit false, .err "reveal: com-init-failed"])
    else if !os.parseOk then
      (1, [.coInit true, .coUninit, .err "reveal: file-not-found"])
    else if !os.cloneOk then
      (1, [.coInit true, .acqFile, .relFile, .coUninit,
        .err "reveal: clone-failed"])
    else if !os.removeLastOk then
      (1, [.coInit true, .acqFile, .acqFolder, .relFolder, .relFile,
        .coUninit, .err "reveal: parse-failed"])
    else if !os.findLastOk then
      (1, [.coInit true, .acqFile, .acqFolder, .relFolder, .relFile,
        .coUninit, .err "reveal: child-extract-failed"])
    else if !os.showSelectOk then
      (1, [.coInit true, .acqFile, .acqFolder, .showSelect, .relFolder,
        .relFile, .coUninit, .err "reveal: show-failed"])
    else
      (0, [.coInit true, .acqFile, .acqFolder, .showSelect, .relFolder,
        .relFile, .coUninit])

/-- Embedding of `open_folder` (pick.cpp lines 177–199). -/
def open_folder (folderpath : Option String) (os : FileuiOS) :
    Nat × List Ev :=
  match folderpath with
  | none => (1, [.err "open-folder: invalid-path"])
  | some p =>
    if p.isEmpty then (1, [.err "open-folder: invalid-path"])
    else if os.shellExecOk then (0, [.shellExec])
    else (1, [.shellExec, .err "open-folder: execute-failed"])

/-- Embedding of `open_file` (pick.cpp lines 202–221). -/
def open_file (filepath : Option String) (os : FileuiOS) :
    Nat × List Ev :=
  match filepath with
  | none => (1, [.err "open-file: invalid-path"])
  | some p =>
    if p.isEmpty then (1, [.err "open-file: invalid-path"])
    else if os.shellExecOk then (0, [.shellExec])
    else (1, [.shellExec, .err "open-file: execute-failed"])

/-- The dialog modes of pick.cpp's `DialogMode`. -/
inductive DialogMode where
  | pickFolder
  | saveFile
  | reveal
  | openFolder
  | openFile
deriving DecidableEq, Repr

/-- The out-parameters of `parse_args`: mode, title, initial/path,
filename; `none` models a still-null `wchar_t*`. -/
structure ParsedArgs where
  mode : DialogMode
  title : String
  initial : Option String
  filename : Option String
deriving DecidableEq, Repr

/-- The `--mode` value dispatch of `parse_args` (pick.cpp lines 75–87):
`none` for a value outside the five recognized modes. -/
def modeOfString (v : String) : Option DialogMode :=
  if v = "pick-folder" then some .pickFolder
  else if v = "save-file" then some .saveFile
  else if v = "reveal" then some .reveal
  else if v = "open-folder" then some .openFolder
  else if v = "open-file" then some .openFile
  else none

/-- The loop of `parse_args` (pick.cpp lines 73–107).  `i` is the current
argv index (the loop starts at 1); `args` the remaining argv tail.  A flag
with a following value consumes it (`i` advances by 2); a flag as the last
argument fails its `i + 1 < argc` guard and falls through to the
positional branch, which assigns argv[1] to the title, argv[2] to the
initial path, and ignores later indices.  An invalid `--mode` value
returns `none` (the C `return false`).  The positional branch
(pick.cpp lines 102–106) assigns argv[1] to the title, argv[2] to the
initial path, and ignores later indices. -/
def positionalArg (i : Nat) (a : String) (acc : ParsedArgs) : ParsedArgs :=
  if i = 1 then { acc with title := a }
  else if i = 2 then { acc with initial := some a }
  else acc

/-- The scan of `parse_args` over argv from index 1 (pick.cpp lines
73–107), carrying the current argv index `i` and the out-parameters. -/
def parse_args_loop : Nat → List String → ParsedArgs →
    Option ParsedArgs
  | _, [], acc => some acc
  | i, [a], acc => some (positionalArg i a acc)
  | i, a :: v :: rest2, acc =>
    if a = "--mode" then
      match modeOfString v with
      | some m => parse_args_loop (i + 2) rest2 { acc with mode := m }
      | none => none
    else if a = "--title" then
      parse_args_loop (i + 2) rest2 { acc with title := v }
    else if a = "--initial" then
      parse_args_loop (i + 2) rest2 { acc with initial := some v }
    else if a = "--path" then
      parse_args_loop (i + 2) rest2 { acc with initial := some v }
    else if a = "--name" then
      parse_args_loop (i + 2) rest2 { acc with filename := some v }
    else
      parse_args_loop (i + 1) (v :: rest2) (positionalArg i a acc)

/-- Embedding of `parse_args` (pick.cpp lines 66–109): starts from the
defaults set at lines 67–70 and scans argv from index 1.  `none` models
the C `return false` (invalid `--mode` value). -/
def parse_args (argv : List String) : Option ParsedArgs :=
  parse_args_loop 1 (argv.drop 1)
    ⟨.pickFolder, "Choose Folder", none, none⟩

/-- Embedding of `main` (pick.cpp lines 223–368): argument parsing, mode
dispatch, and the dialog flow (COM init, dialog creation, `Show`,
`GetResult`, `GetDisplayName`, prefix normalization, UTF-8 output).
Returns (process exit code, stdout bytes, event trace).  The dialog
configuration calls (`GetOptions`/`SetOptions`/`SetTitle`/`SetFileName`/
`SetFolder`) have no observable effect in this model and are elided;
`malloc` for the UNC rewrite buffer is modeled as infallible. -/
def main_fileui (argv : List String) (os : FileuiOS) :
    Nat × List Nat × List Ev :=
  match parse_args argv with
  | none => (1, [], [])
  | some a =>
    match a.mode with
    | .reveal =>
      let r := reveal_file a.initial os
      (r.1, [], r.2)
    | .openFolder =>
      let r := open_folder a.initial os
      (r.1, [], r.2)
    | .openFile =>
      let r := open_file a.initial os
      (r.1, [], r.2)
    | _ =>
      if !os.comInitOk then (1, [], [.coInit false])
      else if !os.coCreateOk then
        (1, [], [.coInit true, .coCreate, .coUninit])
      else if !os.dialogShowOk then
        (1, [], [.coInit true, .coCreate, .dialogShow, .coUninit])
      else if !os.getResultOk then
        (1, [], [.coInit true, .coCreate, .dialogShow, .getResult,
          .coUninit])
      else
        let evs : List Ev := [.coInit true, .coCreate, .dialogShow,
          .getResult, .getDisplayName, .coUninit]
        match os.displayName with
        | none => (1, [], evs)
        | some wz =>
          if wz.isEmpty then (1, [], evs)
          else
            let w := write_utf8_stdout (some (normalize wz os.glpn))
              os.fwrite
            (if w.1 = 0 then 0 else 1, w.2, evs)

/-- Exit codes of diskspace.cpp (lines 13–18). -/
inductive ExitCode where
  | SUCCESS
  | ERR_ARGS
  | ERR_CONVERSION
  | ERR_OS_CALL
deriving DecidableEq, Repr

/-- Numeric value of a diskspace exit code. -/
def ExitCode.toNat : ExitCode → Nat
  | .SUCCESS => 0
  | .ERR_ARGS => 2
  | .ERR_CONVERSION => 3
  | .ERR_OS_CALL => 4

/-- Oracle for the OS calls of the diskspace tool (Windows branch). -/
structure DiskOS where
  /-- `MultiByteToWideChar` returns a nonzero size. -/
  convOk : Bool
  /-- `GetDiskFreeSpaceExW` succeeds. -/
  queryOk : Bool
  /-- The reported `freeBytesAvailableToCaller.QuadPart`, an unsigned
  64-bit value. -/
  freeBytes : Nat

/-- Embedding of diskspace.cpp `main` (lines 20–62, Windows branch, the
reference behavior).  Returns (exit code, stdout, stderr).  The numeric
`GetLastError` code interpolated into the OS-failure diagnostic is elided
from the stderr model. -/
def diskspace_main (argv : List String) (os : DiskOS) :
    Nat × String × String :=
  if argv.length < 2 then
    (ExitCode.ERR_ARGS.toNat, "",
      "Usage: " ++ argv.headD "" ++ " <path>\n")
  else if !os.convOk then
    (ExitCode.ERR_CONVERSION.toNat, "",
      "Error converting path to wide string\n")
  else if !os.queryOk then
    (ExitCode.ERR_OS_CALL.toNat, "", "Error getting disk space\n")
  else
    (ExitCode.SUCCESS.toNat,
      "FREE_BYTES=" ++ toString os.freeBytes ++ "\n", "")

/-! ### Helper definitions and lemmas -/

/-- The stderr diagnostics among a trace's events. -/
def errEvents (evs : List Ev) : List Ev :=
  evs.filter fun e => match e with | .err _ => true | _ => false

/-- A `GetLongPathNameW` oracle that always fails (returns 0). -/
def glpnFail : List Char → Option (List Char) := fun _ => none

/-- A fileui oracle on which every OS call succeeds; the dialog reports
the path `C:\a` and `fwrite` writes everything requested. -/
def osAllOk : FileuiOS :=
  ⟨true, true, true, true, true, true, true, true, true, true,
    some ['C', ':', '\\', 'a'], glpnFail, fun n => n⟩

theorem utf8EncodeChar_ne_nil (c : Char) : utf8EncodeChar c ≠ [] := by
  unfold utf8EncodeChar
  dsimp only
  split_ifs <;> simp

theorem utf8Bytes_cons (c : Char) (s : List Char) :
    utf8Bytes (c :: s) = utf8EncodeChar c ++ utf8Bytes s := by
  simp [utf8Bytes]

theorem utf8Bytes_ne_nil {s : List Char} (hs : s ≠ []) :
    utf8Bytes s ≠ [] := by
  cases s with
  | nil => exact absurd rfl hs
  | cons c t =>
    rw [utf8Bytes_cons]
    simp [utf8EncodeChar_ne_nil c]

theorem ext_of_unc (s : List Char) (h : uncMarker.isPrefixOf s = true) :
    extMarker.isPrefixOf s = true := by
  rw [List.isPrefixOf_iff_prefix] at h ⊢
  exact List.IsPrefix.trans ⟨['U', 'N', 'C', '\\'], rfl⟩ h

/-- The five option flags recognized by `parse_args`. -/
def optionFlags : List String :=
  ["--mode", "--title", "--initial", "--path", "--name"]

theorem reveal_file_exit (fp : Option String) (os : FileuiOS) :
    (reveal_file fp os).1 = 0 ∨ (reveal_file fp os).1 = 1 := by
  cases fp with
  | none => simp [reveal_file]
  | some p => simp only [reveal_file]; split_ifs <;> simp

theorem open_folder_exit (fp : Option String) (os : FileuiOS) :
    (open_folder fp os).1 = 0 ∨ (open_folder fp os).1 = 1 := by
  cases fp with
  | none => simp [open_folder]
  | some p => simp only [open_folder]; split_ifs <;> simp

theorem open_file_exit (fp : Option String) (os : FileuiOS) :
    (open_file fp os).1 = 0 ∨ (open_file fp os).1 = 1 := by
  cases fp with
  | none => simp [open_file]
  | some p => simp only [open_file]; split_ifs <;> simp

theorem write_full_fail_empty (s : List Char) (fw : Nat → Nat)
    (hfw : ∀ n, n ≤ fw n)
    (h : ¬ (write_utf8_stdout (some s) fw).1 = 0) :
    (write_utf8_stdout (some s) fw).2 = [] := by
  by_cases hle : (utf8Bytes s).length + 1 ≤ 1
  · simp [write_utf8_stdout, hle]
  · exfalso
    apply h
    have hmin : min (fw (utf8Bytes s).length) (utf8Bytes s).length
        = (utf8Bytes s).length := Nat.min_eq_right (hfw _)
    simp [write_utf8_stdout, hle, hmin]

theorem parse_args_loop_none (i : Nat) (args : List String)
    (acc : ParsedArgs) (h : parse_args_loop i args acc = none) :
    ∃ l v r, args = l ++ "--mode" :: v :: r ∧ modeOfString v = none := by
  induction i, args, acc using parse_args_loop.induct with
  | case1 i acc => simp [parse_args_loop] at h
  | case2 i a acc => simp [parse_args_loop] at h
  | case3 i v rest2 acc m hm ih =>
    simp only [parse_args_loop, hm] at h
    obtain ⟨l, v', r', hl, hv⟩ := ih h
    exact ⟨"--mode" :: v :: l, v', r', by simp [hl], hv⟩
  | case4 i v rest2 acc hm =>
    exact ⟨[], v, rest2, rfl, hm⟩
  | case5 i v rest2 acc h1 ih =>
    simp only [parse_args_loop] at h
    obtain ⟨l, v', r', hl, hv⟩ := ih h
    exact ⟨"--title" :: v :: l, v', r', by simp [hl], hv⟩
  | case6 i v rest2 acc h1 h2 ih =>
    simp only [parse_args_loop] at h
    obtain ⟨l, v', r', hl, hv⟩ := ih h
    exact ⟨"--initial" :: v :: l, v', r', by simp [hl], hv⟩
  | case7 i v rest2 acc h1 h2 h3 ih =>
    simp only [parse_args_loop] at h
    obtain ⟨l, v', r', hl, hv⟩ := ih h
    exact ⟨"--path" :: v :: l, v', r', by simp [hl], hv⟩
  | case8 i v rest2 acc h1 h2 h3 h4 ih =>
    simp only [parse_args_loop] at h
    obtain ⟨l, v', r', hl, hv⟩ := ih h
    exact ⟨"--name" :: v :: l, v', r', by simp [hl], hv⟩
  | case9 i a v rest2 acc h1 h2 h3 h4 h5 ih =>
    simp only [parse_args_loop, h1, h2, h3, h4, h5, if_false] at h
    obtain ⟨l, v', r', hl, hv⟩ := ih h
    exact ⟨a :: l, v', r', by simp [hl], hv⟩

/-! ### Claims -/

/-- C1: for every input path and every combination of OS-call outcomes,
`reveal_file` releases the resolved absolute PIDL and the cloned parent
PIDL exactly as many times as it acquired them (each at most once), never
releases the child PIDL view, and tears down the COM session (one
`CoUninitialize` per successful `CoInitializeEx`) before returning. -/
theorem reveal_releases_each_identifier_once (fp : Option String)
    (os : FileuiOS) :
    ((reveal_file fp os).2.count .relFile
        = (reveal_file fp os).2.count .acqFile) ∧
    (reveal_file fp os).2.count .acqFile ≤ 1 ∧
    ((reveal_file fp os).2.count .relFolder
        = (reveal_file fp os).2.count .acqFolder) ∧
    (reveal_file fp os).2.count .acqFolder ≤ 1 ∧
    (reveal_file fp os).2.count .relChild = 0 ∧
    ((reveal_file fp os).2.count .coUninit
        = (reveal_file fp os).2.count (.coInit true)) := by
  cases fp with
  | none => simp [reveal_file]
  | some p =>
    obtain ⟨ci, pk, ck, rk, fk, sk, se, cc, ds, gr, dn, gl, fw⟩ := os
    cases hp : p.isEmpty <;>
      cases ci <;> cases pk <;> cases ck <;> cases rk <;> cases fk <;>
      cases sk <;> simp [reveal_file, hp]

/-- C2: for every non-empty path on which `SHParseDisplayName` fails (the
path does not resolve to a namespace item), `reveal_file` returns 1 with
the `file-not-found` diagnostic, and its trace shows the COM session torn
down and no identifier ever acquired. -/
theorem reveal_unresolved_is_file_not_found (p : String) (os : FileuiOS)
    (hp : p.isEmpty = false) (hci : os.comInitOk = true)
    (hpk : os.parseOk = false) :
    reveal_file (some p) os =
      (1, [.coInit true, .coUninit, .err "reveal: file-not-found"]) ∧
    (reveal_file (some p) os).2.count .acqFile = 0 ∧
    (reveal_file (some p) os).2.count .acqFolder = 0 ∧
    (reveal_file (some p) os).2.count .coUninit = 1 := by
  have h : reveal_file (some p) os =
      (1, [.coInit true, .coUninit, .err "reveal: file-not-found"]) := by
    simp [reveal_file, hp, hci, hpk]
  refine ⟨h, ?_, ?_, ?_⟩ <;> rw [h] <;> decide

/-- Witness for C2 at the concrete path `C:\x`. -/
theorem reveal_unresolved_is_file_not_found_witness :
    reveal_file (some "C:\\x") { osAllOk with parseOk := false } =
      (1, [.coInit true, .coUninit, .err "reveal: file-not-found"]) :=
  (reveal_unresolved_is_file_not_found "C:\\x"
    { osAllOk with parseOk := false } (by decide) rfl rfl).1

/-- C5: `write_utf8_stdout` fails on a null input and on an input whose
computed UTF-8 size is ≤ 1 (the empty string), writing nothing; on a
non-empty input it hands exactly the UTF-8 encoding (no terminator, no
newline) to `fwrite`, the bytes reaching stdout are the written prefix,
and it succeeds exactly when all of them were written. -/
theorem write_utf8_stdout_spec (fw : Nat → Nat) :
    write_utf8_stdout none fw = (1, []) ∧
    write_utf8_stdout (some []) fw = (1, []) ∧
    ∀ s : List Char, s ≠ [] →
      (write_utf8_stdout (some s) fw).2 =
        (utf8Bytes s).take
          (min (fw (utf8Bytes s).length) (utf8Bytes s).length) ∧
      ((write_utf8_stdout (some s) fw).1 = 0 ↔
        (write_utf8_stdout (some s) fw).2 = utf8Bytes s) := by
  refine ⟨rfl, rfl, ?_⟩
  intro s hs
  have hb : utf8Bytes s ≠ [] := utf8Bytes_ne_nil hs
  have hlen : ¬ (utf8Bytes s).length + 1 ≤ 1 := by
    have := List.length_pos.mpr hb
    omega
  constructor
  · simp [write_utf8_stdout, hlen]
  · simp only [write_utf8_stdout, hlen, if_false, Nat.add_sub_cancel]
    by_cases h : min (fw (utf8Bytes s).length) (utf8Bytes s).length
        = (utf8Bytes s).length
    · simp [h, List.take_length]
    · simp only [h, if_false]
      constructor
      · intro h10; exact absurd h10 one_ne_zero
      · intro htake
        exfalso
        apply h
        have := congrArg List.length htake
        rw [List.length_take] at this
        omega

/-- C3: `normalize` matches the reference behavior on extended-length
inputs: an input beginning with `\\?\UNC\` yields `\\` followed by the
remainder after that 8-character marker, independently of (and without
consulting) the short-name expansion; an input beginning with the plain
`\\?\` marker (and not the UNC one) is stripped of exactly 4 characters,
and the `GetLongPathNameW` result is used exactly when its length is
strictly between 0 and 32768, with fallback to the stripped path. -/
theorem normalize_extended_length_behavior
    (glpn : List Char → Option (List Char)) :
    (∀ rest : List Char,
      normalize (uncMarker ++ rest) glpn = ['\\', '\\'] ++ rest) ∧
    (∀ raw : List Char, extMarker.isPrefixOf raw = true →
      uncMarker.isPrefixOf raw = false →
      ((glpn (raw.drop 4) = none → normalize raw glpn = raw.drop 4) ∧
       (∀ lp : List Char, glpn (raw.drop 4) = some lp →
         normalize raw glpn =
           if 0 < lp.length ∧ lp.length < 32768 then lp
           else raw.drop 4))) := by
  constructor
  · intro rest
    have hpre : uncMarker.isPrefixOf (uncMarker ++ rest) = true :=
      List.isPrefixOf_iff_prefix.mpr (List.prefix_append _ _)
    have hdrop : (uncMarker ++ rest).drop 8 = rest := by
      rw [show (8 : Nat) = uncMarker.length from rfl, List.drop_left]
    simp [normalize, hpre, hdrop]
  · intro raw hext hunc
    constructor
    · intro hg
      simp [normalize, hunc, hext, hg]
    · intro lp hg
      simp only [normalize, hunc, hext]
      simp only [Bool.false_eq_true, if_false, if_true, hg]

/-- Witness for C3 at the concrete inputs `\\?\UNC\x` and `\\?\C:\y`
with the always-failing expansion oracle. -/
theorem normalize_extended_length_behavior_witness :
    normalize (uncMarker ++ ['x']) glpnFail = ['\\', '\\'] ++ ['x'] ∧
    normalize ['\\', '\\', '?', '\\', 'C', ':', '\\', 'y'] glpnFail =
      (['\\', '\\', '?', '\\', 'C', ':', '\\', 'y'] : List Char).drop 4 := by
  refine ⟨(normalize_extended_length_behavior glpnFail).1 ['x'], ?_⟩
  exact ((normalize_extended_length_behavior glpnFail).2
    ['\\', '\\', '?', '\\', 'C', ':', '\\', 'y'] (by decide) (by decide)).1
    rfl

/-- Counterexample to C4 as stated: on the input `\\?\UNC\?\UNC\a` (with
the expansion oracle that always fails), the first `normalize` pass
produces `\\?\UNC\a`, which the second pass rewrites again to `\\a`, so
`normalize` is not idempotent. -/
theorem normalize_not_idempotent :
    normalize
        (normalize
          ['\\', '\\', '?', '\\', 'U', 'N', 'C', '\\', '?', '\\', 'U',
            'N', 'C', '\\', 'a'] glpnFail) glpnFail ≠
      normalize
        ['\\', '\\', '?', '\\', 'U', 'N', 'C', '\\', '?', '\\', 'U',
          'N', 'C', '\\', 'a'] glpnFail := by
  decide

/-- C4 amended: `normalize` (with the OS short-name expansion modeled as
a fixed function) is idempotent on every input whose first-pass result
does not itself begin with the extended-length marker `\\?\` and whose
first-pass result the expansion oracle either fails on or returns
unchanged. -/
theorem normalize_idempotent_when_stable
    (glpn : List Char → Option (List Char)) (x : List Char)
    (h1 : extMarker.isPrefixOf (normalize x glpn) = false)
    (h2 : glpn (normalize x glpn) = none ∨
          glpn (normalize x glpn) = some (normalize x glpn)) :
    normalize (normalize x glpn) glpn = normalize x glpn := by
  have hunc : uncMarker.isPrefixOf (normalize x glpn) = false := by
    cases hu : uncMarker.isPrefixOf (normalize x glpn) with
    | false => rfl
    | true => rw [ext_of_unc _ hu] at h1; exact absurd h1 (by simp)
  generalize hR : normalize x glpn = r at h1 hunc ⊢
  rw [hR] at h2
  rcases h2 with hg | hg
  · simp [normalize, hunc, h1, hg]
  · simp [normalize, hunc, h1, hg]

/-- Witness for C4's amended statement at the concrete input `C:`. -/
theorem normalize_idempotent_when_stable_witness :
    normalize (normalize ['C', ':'] glpnFail) glpnFail =
      normalize ['C', ':'] glpnFail :=
  normalize_idempotent_when_stable glpnFail ['C', ':'] (by decide)
    (Or.inl rfl)

/-- Witness for C5 at the concrete input `ab` with a full-writing
`fwrite`. -/
theorem write_utf8_stdout_spec_witness :
    (write_utf8_stdout (some ['a', 'b']) (fun n => n)).2 =
      (utf8Bytes ['a', 'b']).take
        (min ((fun n => n) (utf8Bytes ['a', 'b']).length)
          (utf8Bytes ['a', 'b']).length) ∧
    ((write_utf8_stdout (some ['a', 'b']) (fun n => n)).1 = 0 ↔
      (write_utf8_stdout (some ['a', 'b']) (fun n => n)).2 =
        utf8Bytes ['a', 'b']) :=
  (write_utf8_stdout_spec (fun n => n)).2.2 ['a', 'b'] (by decide)

/-- Counterexample to C6 as stated.  First conjunct: with every OS call
succeeding except the dialog `Show` (the user-cancel / show-failure
case), the process exits 1 but writes no diagnostic to standard error.
Second conjunct: with a short-writing `fwrite`, the process exits 1 yet
standard output is non-empty (a partial result was written). -/
theorem fileui_failure_without_diagnostic :
    ((main_fileui ["mvd-fileui"]
        { osAllOk with dialogShowOk := false }).1 = 1 ∧
     errEvents (main_fileui ["mvd-fileui"]
        { osAllOk with dialogShowOk := false }).2.2 = [] ∧
     (main_fileui ["mvd-fileui"]
        { osAllOk with dialogShowOk := false }).2.1 = []) ∧
    ((main_fileui ["mvd-fileui"]
        { osAllOk with fwrite := fun _ => 1 }).1 = 1 ∧
     (main_fileui ["mvd-fileui"]
        { osAllOk with fwrite := fun _ => 1 }).2.1 ≠ []) := by
  decide

/-- C6 amended: every execution of the tool exits 0 or 1, and — provided
the single stdout write does not short-write — a failing execution (exit
code 1) writes nothing to standard output; diagnostics only ever go to
the stderr stream of the trace, but dialog-mode failures (including user
cancel) may emit none. -/
theorem fileui_failures_exit_one_stdout_empty (argv : List String)
    (os : FileuiOS) (hfw : ∀ n, n ≤ os.fwrite n) :
    ((main_fileui argv os).1 = 0 ∨ (main_fileui argv os).1 = 1) ∧
    ((main_fileui argv os).1 = 1 → (main_fileui argv os).2.1 = []) := by
  obtain ⟨ci, pk, ck, rk, fk, sk, se, cc, ds, gr, dn, gl, fw⟩ := os
  rcases hpa : parse_args argv with _ | ⟨m, t, ini, fn⟩
  · simp [main_fileui, hpa]
  · cases m
    case reveal =>
      rcases reveal_file_exit ini
          ⟨ci, pk, ck, rk, fk, sk, se, cc, ds, gr, dn, gl, fw⟩
        with h | h <;> simp [main_fileui, hpa, h]
    case openFolder =>
      rcases open_folder_exit ini
          ⟨ci, pk, ck, rk, fk, sk, se, cc, ds, gr, dn, gl, fw⟩
        with h | h <;> simp [main_fileui, hpa, h]
    case openFile =>
      rcases open_file_exit ini
          ⟨ci, pk, ck, rk, fk, sk, se, cc, ds, gr, dn, gl, fw⟩
        with h | h <;> simp [main_fileui, hpa, h]
    all_goals
      simp only [main_fileui, hpa]
      cases ci <;> cases cc <;> cases ds <;> cases gr
      all_goals try (simp; done)
      all_goals
        rcases dn with _ | wz
        · simp
        · by_cases hwz : wz.isEmpty
          · simp [hwz]
          · by_cases hw :
                (write_utf8_stdout (some (normalize wz gl)) fw).1 = 0
            · simp [hwz, hw]
            · simp [hwz, hw, write_full_fail_empty _ _ hfw hw]

/-- Witness for C6's amended statement: a concrete failing run
(`GetResult` fails) with a full-writing `fwrite`. -/
theorem fileui_failures_exit_one_stdout_empty_witness :
    ((main_fileui ["mvd-fileui"]
        { osAllOk with getResultOk := false }).1 = 0 ∨
     (main_fileui ["mvd-fileui"]
        { osAllOk with getResultOk := false }).1 = 1) ∧
    ((main_fileui ["mvd-fileui"]
        { osAllOk with getResultOk := false }).1 = 1 →
     (main_fileui ["mvd-fileui"]
        { osAllOk with getResultOk := false }).2.1 = []) :=
  fileui_failures_exit_one_stdout_empty ["mvd-fileui"]
    { osAllOk with getResultOk := false } (fun n => Nat.le_refl n)

/-- C7: invoking the tool with `--mode open-folder --path ""` exits 1
with a stderr diagnostic and an otherwise empty trace (no shell-execute,
no COM session, no OS call at all) and empty stdout; `reveal_file` and
`open_file` likewise reject an empty or null path with the invalid-path
diagnostic and a trace containing no OS event. -/
theorem empty_path_rejected_without_os_calls (os : FileuiOS) :
    main_fileui ["mvd-fileui", "--mode", "open-folder", "--path", ""] os =
      (1, [], [.err "open-folder: invalid-path"]) ∧
    reveal_file (some "") os = (1, [.err "reveal: invalid-path"]) ∧
    reveal_file none os = (1, [.err "reveal: invalid-path"]) ∧
    open_file (some "") os = (1, [.err "open-file: invalid-path"]) ∧
    open_file none os = (1, [.err "open-file: invalid-path"]) :=
  ⟨rfl, rfl, rfl, rfl, rfl⟩

/-- C8: with no arguments the parsed mode defaults to pick-folder (title
`Choose Folder`, no initial path, no filename), and in the positional
backward-compatible form the first bare (non-flag) argument becomes the
dialog title and the second the initial path. -/
theorem parse_args_default_and_positional :
    parse_args ["mvd-fileui"] =
      some ⟨.pickFolder, "Choose Folder", none, none⟩ ∧
    ∀ t p : String, t ∉ optionFlags →
      parse_args ["mvd-fileui", t, p] =
        some ⟨.pickFolder, t, some p, none⟩ := by
  constructor
  · decide
  · intro t p ht
    simp only [optionFlags, List.mem_cons, not_or] at ht
    obtain ⟨h1, h2, h3, h4, h5, -⟩ := ht
    simp [parse_args, parse_args_loop, positionalArg, h1, h2, h3, h4, h5]

/-- Witness for C8 at the concrete positional invocation from the
source's usage comment. -/
theorem parse_args_default_and_positional_witness :
    parse_args ["mvd-fileui", "Pick", "C:\\Users\\Public"] =
      some ⟨.pickFolder, "Pick", some "C:\\Users\\Public", none⟩ :=
  parse_args_default_and_positional.2 "Pick" "C:\\Users\\Public"
    (by decide)

/-- C9: the diskspace tool exits 2 with empty stdout when invoked
without a path argument; with a path argument it exits 3 on
encoding-conversion failure and 4 on OS query failure, both with empty
stdout; and on success it writes exactly `FREE_BYTES=<decimal>` plus a
newline to stdout and exits 0. -/
theorem diskspace_exit_codes_and_output (argv : List String)
    (os : DiskOS) :
    (argv.length < 2 →
      (diskspace_main argv os).1 = 2 ∧ (diskspace_main argv os).2.1 = "") ∧
    (2 ≤ argv.length → os.convOk = false →
      (diskspace_main argv os).1 = 3 ∧ (diskspace_main argv os).2.1 = "") ∧
    (2 ≤ argv.length → os.convOk = true → os.queryOk = false →
      (diskspace_main argv os).1 = 4 ∧ (diskspace_main argv os).2.1 = "") ∧
    (2 ≤ argv.length → os.convOk = true → os.queryOk = true →
      diskspace_main argv os =
        (0, "FREE_BYTES=" ++ toString os.freeBytes ++ "\n", "")) := by
  refine ⟨?_, ?_, ?_, ?_⟩
  · intro h; simp [diskspace_main, h, ExitCode.toNat]
  · intro h hc
    simp [diskspace_main, Nat.not_lt.mpr h, hc, ExitCode.toNat]
  · intro h hc hq
    simp [diskspace_main, Nat.not_lt.mpr h, hc, hq, ExitCode.toNat]
  · intro h hc hq
    simp [diskspace_main, Nat.not_lt.mpr h, hc, hq, ExitCode.toNat]

/-- Witness for C9 at a concrete successful invocation. -/
theorem diskspace_exit_codes_and_output_witness :
    diskspace_main ["mvd-diskspace", "C:\\"] ⟨true, true, 1024⟩ =
      (0, "FREE_BYTES=" ++ toString (1024 : Nat) ++ "\n", "") :=
  (diskspace_exit_codes_and_output ["mvd-diskspace", "C:\\"]
    ⟨true, true, 1024⟩).2.2.2 (by decide) rfl rfl

/-- C10: argument parsing fails only when some `--mode` is followed by a
value outside the five recognized modes (and such a failure makes `main`
return 1 with nothing on stdout and no OS call); an invalid `--mode`
value does fail; bare arguments are accepted without error, with argv[1]
the title, argv[2] the initial path and argv[3] silently ignored; and
when `--mode` appears twice the last occurrence wins. -/
theorem parse_args_failure_characterization :
    (∀ argv : List String, parse_args argv = none →
      ∃ l v r, argv.drop 1 = l ++ "--mode" :: v :: r ∧
        modeOfString v = none) ∧
    parse_args ["mvd-fileui", "--mode", "bogus"] = none ∧
    (∀ x1 x2 x3 : String, x1 ∉ optionFlags → x2 ∉ optionFlags →
      parse_args ["mvd-fileui", x1, x2, x3] =
        some ⟨.pickFolder, x1, some x2, none⟩) ∧
    (∀ v1 v2 : String, ∀ m1 m2 : DialogMode,
      modeOfString v1 = some m1 → modeOfString v2 = some m2 →
      parse_args ["mvd-fileui", "--mode", v1, "--mode", v2] =
        some ⟨m2, "Choose Folder", none, none⟩) ∧
    (∀ (argv : List String) (os : FileuiOS), parse_args argv = none →
      main_fileui argv os = (1, [], [])) := by
  refine ⟨?_, ?_, ?_, ?_, ?_⟩
  · intro argv h
    exact parse_args_loop_none 1 (argv.drop 1) _ h
  · decide
  · intro x1 x2 x3 h1 h2
    simp only [optionFlags, List.mem_cons, not_or] at h1 h2
    obtain ⟨h11, h12, h13, h14, h15, -⟩ := h1
    obtain ⟨h21, h22, h23, h24, h25, -⟩ := h2
    simp [parse_args, parse_args_loop, positionalArg,
      h11, h12, h13, h14, h15, h21, h22, h23, h24, h25]
  · intro v1 v2 m1 m2 hm1 hm2
    simp [parse_args, parse_args_loop, hm1, hm2]
  · intro argv os h
    simp [main_fileui, h]

/-- Witness for C10 at concrete invocations: a failing parse and its
decomposition, an ignored third bare argument, a repeated `--mode`, and
the exit-1 dispatch of a failing parse. -/
theorem parse_args_failure_characterization_witness :
    (∃ l v r, (["mvd-fileui", "--mode", "bogus"] : List String).drop 1 =
        l ++ "--mode" :: v :: r ∧ modeOfString v = none) ∧
    parse_args ["mvd-fileui", "nice title", "C:\\tmp", "junk"] =
      some ⟨.pickFolder, "nice title", some "C:\\tmp", none⟩ ∧
    parse_args ["mvd-fileui", "--mode", "reveal", "--mode", "save-file"] =
      some ⟨.saveFile, "Choose Folder", none, none⟩ ∧
    main_fileui ["mvd-fileui", "--mode", "bogus"] osAllOk = (1, [], []) := by
  refine ⟨?_, ?_, ?_, ?_⟩
  · exact parse_args_failure_characterization.1
      ["mvd-fileui", "--mode", "bogus"] (by decide)
  · exact parse_args_failure_characterization.2.2.1
      "nice title" "C:\\tmp" "junk" (by decide) (by decide)
  · exact parse_args_failure_characterization.2.2.2.1
      "reveal" "save-file" .reveal .saveFile (by decide) (by decide)
  · exact parse_args_failure_characterization.2.2.2.2
      ["mvd-fileui", "--mode", "bogus"] osAllOk (by decide)

end Mvd
